import Mathlib

/-!
Verification of the Electronya embedded-datastore core against its design
specification.  The definitions below are a shallow embedding of the C
sources (datastoreMeta.h, datastoreUtils.c, datastoreBufferPool.c,
datastore.c): machine integers are modelled as Nat/Int (all arithmetic in
the properties below stays far from the 32-bit wrap), C out-parameters are
threaded as explicit state, and fallible calls return an error code paired
with the updated state, exactly as the C functions return an int and
mutate their operands.
-/

namespace Datastore

/-- Zephyr errno codes used by the sources, as negative return values.
Only their sign and distinctness matter to the properties below. -/
def ENOTSUP : Int := -134

/-- No-space error code, returned for allocation failures and (in the
sources) for rejected ranges. -/
def ENOSPC : Int := -28

/-- Invalid-argument error code. -/
def EINVAL : Int := -22

/-- No-such-entry error code, returned when a pause target is not found. -/
def ESRCH : Int := -3

/-- Not-initialized error code. -/
def EACCES : Int := -13

/-- DatapointType_t value DATAPOINT_FLOAT from datastoreMeta.h. -/
def DATAPOINT_FLOAT : Nat := 0

/-- DatapointType_t value DATAPOINT_UINT from datastoreMeta.h. -/
def DATAPOINT_UINT : Nat := 1

/-- DatapointType_t value DATAPOINT_INT from datastoreMeta.h. -/
def DATAPOINT_INT : Nat := 2

/-- DatapointType_t value DATAPOINT_MULTI_STATE from datastoreMeta.h. -/
def DATAPOINT_MULTI_STATE : Nat := 3

/-- DatapointType_t value DATAPOINT_BUTTON from datastoreMeta.h. -/
def DATAPOINT_BUTTON : Nat := 4

/-- DatapointType_t value DATAPOINT_TYPE_COUNT from datastoreMeta.h. -/
def DATAPOINT_TYPE_COUNT : Nat := 5

/-- Datapoint in NVM flag mask from datastoreMeta.h. -/
def DATAPOINT_FLAG_NVM_MASK : Nat := 1

/-- One X-macro row of a catalog in datastoreMeta.h: flags and default
value.  DatapointData_t is a 32-bit union of float32/uint32/int32; we
model the stored payload as the integer it holds.  The float defaults in
the catalog (0.0f, 1.0f, 2.0f, 3.0f) convert exactly to the integers
0..3 under the C initializer conversions used by the sources, so an Int
payload represents every catalog default without loss. -/
structure CatalogEntry where
  flags : Nat
  defaultVal : Int
deriving DecidableEq

/-- DATASTORE_FLOAT_DATAPOINTS X-macro list from datastoreMeta.h
(defaults 0.0f, 1.0f, 2.0f, 3.0f, all NVM-flagged). -/
def DATASTORE_FLOAT_DATAPOINTS : List CatalogEntry :=
  [⟨DATAPOINT_FLAG_NVM_MASK, 0⟩, ⟨DATAPOINT_FLAG_NVM_MASK, 1⟩,
   ⟨DATAPOINT_FLAG_NVM_MASK, 2⟩, ⟨DATAPOINT_FLAG_NVM_MASK, 3⟩]

/-- DATASTORE_UINT_DATAPOINTS X-macro list from datastoreMeta.h. -/
def DATASTORE_UINT_DATAPOINTS : List CatalogEntry :=
  [⟨DATAPOINT_FLAG_NVM_MASK, 0⟩, ⟨DATAPOINT_FLAG_NVM_MASK, 1⟩,
   ⟨DATAPOINT_FLAG_NVM_MASK, 2⟩, ⟨DATAPOINT_FLAG_NVM_MASK, 3⟩]

/-- DATASTORE_INT_DATAPOINTS X-macro list from datastoreMeta.h
(defaults -1, 0, 1, 2). -/
def DATASTORE_INT_DATAPOINTS : List CatalogEntry :=
  [⟨DATAPOINT_FLAG_NVM_MASK, -1⟩, ⟨DATAPOINT_FLAG_NVM_MASK, 0⟩,
   ⟨DATAPOINT_FLAG_NVM_MASK, 1⟩, ⟨DATAPOINT_FLAG_NVM_MASK, 2⟩]

/-- DATASTORE_MULTI_STATE_DATAPOINTS X-macro list from datastoreMeta.h. -/
def DATASTORE_MULTI_STATE_DATAPOINTS : List CatalogEntry :=
  [⟨DATAPOINT_FLAG_NVM_MASK, 0⟩, ⟨DATAPOINT_FLAG_NVM_MASK, 1⟩,
   ⟨DATAPOINT_FLAG_NVM_MASK, 2⟩, ⟨DATAPOINT_FLAG_NVM_MASK, 3⟩]

/-- DATASTORE_BUTTON_DATAPOINTS X-macro list from datastoreMeta.h
(defaults all 0). -/
def DATASTORE_BUTTON_DATAPOINTS : List CatalogEntry :=
  [⟨DATAPOINT_FLAG_NVM_MASK, 0⟩, ⟨DATAPOINT_FLAG_NVM_MASK, 0⟩,
   ⟨DATAPOINT_FLAG_NVM_MASK, 0⟩, ⟨DATAPOINT_FLAG_NVM_MASK, 0⟩]

/-- Datapoint_t from datastoreMeta.h: the stored payload and the flags. -/
structure Datapoint where
  data : Int
  flags : Nat
deriving DecidableEq

/-- The static-array initializer pattern of datastoreUtils.c: each X-macro
row (name, flags, defaultVal) becomes a Datapoint_t with that default and
those flags. -/
def mkTable (catalog : List CatalogEntry) : List Datapoint :=
  catalog.map fun e => ⟨e.defaultVal, e.flags⟩

/-- The floats table of datastoreUtils.c, initialized from
DATASTORE_FLOAT_DATAPOINTS. -/
def floats : List Datapoint := mkTable DATASTORE_FLOAT_DATAPOINTS

/-- The uints table of datastoreUtils.c, initialized from
DATASTORE_UINT_DATAPOINTS. -/
def uints : List Datapoint := mkTable DATASTORE_UINT_DATAPOINTS

/-- The ints table of datastoreUtils.c.  The source initializer expands
DATASTORE_FLOAT_DATAPOINTS, not DATASTORE_INT_DATAPOINTS, so we translate
it that way. -/
def ints : List Datapoint := mkTable DATASTORE_FLOAT_DATAPOINTS

/-- The multiStates table of datastoreUtils.c, initialized from
DATASTORE_MULTI_STATE_DATAPOINTS. -/
def multiStates : List Datapoint := mkTable DATASTORE_MULTI_STATE_DATAPOINTS

/-- The buttons table of datastoreUtils.c.  The source initializer expands
DATASTORE_FLOAT_DATAPOINTS, not DATASTORE_BUTTON_DATAPOINTS, so we
translate it that way. -/
def buttons : List Datapoint := mkTable DATASTORE_FLOAT_DATAPOINTS

/-- FLOAT_DATAPOINT_COUNT from the datastore.h enum: one entry per row of
the float X-macro list. -/
def FLOAT_DATAPOINT_COUNT : Nat := DATASTORE_FLOAT_DATAPOINTS.length

/-- UINT_DATAPOINT_COUNT from the datastore.h enum. -/
def UINT_DATAPOINT_COUNT : Nat := DATASTORE_UINT_DATAPOINTS.length

/-- INT_DATAPOINT_COUNT from the datastore.h enum. -/
def INT_DATAPOINT_COUNT : Nat := DATASTORE_INT_DATAPOINTS.length

/-- MULTI_STATE_DATAPOINT_COUNT from the datastore.h enum. -/
def MULTI_STATE_DATAPOINT_COUNT : Nat := DATASTORE_MULTI_STATE_DATAPOINTS.length

/-- BUTTON_DATAPOINT_COUNT from the datastore.h enum. -/
def BUTTON_DATAPOINT_COUNT : Nat := DATASTORE_BUTTON_DATAPOINTS.length

/-- The datapointCounts array of datastoreUtils.c, indexed by
DatapointType_t. -/
def datapointCounts : List Nat :=
  [FLOAT_DATAPOINT_COUNT, UINT_DATAPOINT_COUNT, INT_DATAPOINT_COUNT,
   MULTI_STATE_DATAPOINT_COUNT, BUTTON_DATAPOINT_COUNT]

/-- The mutable table state of datastoreUtils.c: the contents of the five
static datapoint arrays, as a function from DatapointType_t value and
datapoint index to the stored payload.  Indices beyond the declared array
extents are C out-of-bounds accesses; the total function gives them an
arbitrary well-defined value so that the embedding can state which indices
the loops touch. -/
structure DSState where
  tables : Nat → Nat → Int

/-- The table state at process start, holding the static initializers of
datastoreUtils.c. -/
def initState : DSState :=
  ⟨fun t i =>
    ((([floats, uints, ints, multiStates, buttons]).getD t []).getD i ⟨0, 0⟩).data⟩

/-- isDatapointIdAndValCountValid from datastoreUtils.c, verbatim:
datapointId >= datapointCount AND datapointId + valCount >=
datapointCount.  The callers treat a true result as the rejection
condition. -/
def isDatapointIdAndValCountValid (datapointId valCount datapointCount : Nat) : Bool :=
  decide (datapointId ≥ datapointCount) && decide (datapointId + valCount ≥ datapointCount)

/-- The body of the read loop of datastoreUtilReadData: for each index i
in the list, values[i] = tbl[i] (the source stores to the absolute index
i of the caller output array). -/
def readLoop (tbl : Nat → Int) (idxs : List Nat) (values : Nat → Int) : Nat → Int :=
  idxs.foldl (fun vals i => Function.update vals i (tbl i)) values

/-- datastoreUtilReadData from datastoreUtils.c.  The caller output array
values[] is modelled as a total function over absolute indices, because
the source indexes it with the absolute loop variable i running over
[datapointId, datapointId + valCount).  Returns the error code and the
updated output array. -/
def datastoreUtilReadData (datapointType datapointId valCount : Nat) (s : DSState)
    (values : Nat → Int) : Int × (Nat → Int) :=
  if DATAPOINT_TYPE_COUNT ≤ datapointType then (ENOTSUP, values)
  else if isDatapointIdAndValCountValid datapointId valCount
      (datapointCounts.getD datapointType 0) then (ENOSPC, values)
  else (0, readLoop (s.tables datapointType) (List.range' datapointId valCount) values)

/-- The datapoint-table indices the read loop of datastoreUtilReadData
dereferences: none when the function returns before the loop, otherwise
the loop range [datapointId, datapointId + valCount). -/
def datastoreUtilReadAccesses (datapointType datapointId valCount : Nat) : List Nat :=
  if DATAPOINT_TYPE_COUNT ≤ datapointType then []
  else if isDatapointIdAndValCountValid datapointId valCount
      (datapointCounts.getD datapointType 0) then []
  else List.range' datapointId valCount

/-- One iteration of the write loop of datastoreUtilWriteData: if the
table element differs from values[i], store values[i] and set the notify
flag. -/
def writeStep (vals : Nat → Int) (acc : (Nat → Int) × Bool) (i : Nat) : (Nat → Int) × Bool :=
  if acc.1 i ≠ vals i then (Function.update acc.1 i (vals i), true) else acc

/-- The write loop of datastoreUtilWriteData over the given index list,
starting from the current table contents and notify flag. -/
def writeLoop (vals : Nat → Int) (idxs : List Nat) (tbl : Nat → Int) (ntn : Bool) :
    (Nat → Int) × Bool :=
  idxs.foldl (writeStep vals) (tbl, ntn)

/-- datastoreUtilWriteData from datastoreUtils.c.  The caller input array
values[] is modelled as a total function over absolute indices, because
the source compares and stores values[i] with i running over
[datapointId, datapointId + valCount).  Returns the error code, the new
table state and the needToNotify out-parameter (set to false after
validation, then raised by the loop when an element changes; untouched on
the error paths, as in the source). -/
def datastoreUtilWriteData (datapointType datapointId : Nat) (vals : Nat → Int)
    (valCount : Nat) (s : DSState) (needToNotify : Bool) : Int × DSState × Bool :=
  if DATAPOINT_TYPE_COUNT ≤ datapointType then (ENOTSUP, s, needToNotify)
  else if isDatapointIdAndValCountValid datapointId valCount
      (datapointCounts.getD datapointType 0) then (ENOSPC, s, needToNotify)
  else
    let r := writeLoop vals (List.range' datapointId valCount) (s.tables datapointType) false
    (0, ⟨fun t i => if t = datapointType then r.1 i else s.tables t i⟩, r.2)

/-- DatastoreBufferPool_t from datastoreBufferPool.h.  Buffer pointers
are modelled as Nat tokens; a container slot holds some token or none
for NULL.  The container list has one slot per allocated pointer cell;
a C access past its length is out of bounds and is modelled by getD
returning none (the runs proved below only exercise in-bounds slots). -/
structure DatastoreBufferPool where
  poolSize : Nat
  bufferSize : Nat
  bufferInPool : Nat
  buffers : List (Option Nat)
deriving DecidableEq

/-- The outcomes of the k_malloc calls made by datastoreBufPoolInit: the
pool struct, the pointer container, and each buffer (by loop index). -/
structure AllocOracle where
  structOk : Bool
  containerOk : Bool
  bufferOk : Nat → Bool

/-- allocateBuffers from datastoreBufferPool.c: allocates buffer i while
i < poolSize and no error occurred (the loop condition carries err == 0,
so iterations after a failure do nothing).  Returns the error code and
the list of buffers that were successfully allocated and are still
allocated when the function returns. -/
def allocateBuffers (ok : Nat → Bool) (poolSize : Nat) : Int × List Nat :=
  (List.range poolSize).foldl
    (fun acc i =>
      if acc.1 = 0 then (if ok i then (acc.1, acc.2 ++ [i]) else (ENOSPC, acc.2))
      else acc)
    ((0 : Int), ([] : List Nat))

/-- datastoreBufPoolInit from datastoreBufferPool.c.  Returns the pool
handle (none for the NULL returns of the source) together with the list
of buffers left allocated when the function returns; the source never
calls freeBuffers, so on the allocateBuffers failure path the partial
allocations stay live.  The source sets bufferInPool to bufferSize
(sic), which is translated verbatim. -/
def datastoreBufPoolInit (o : AllocOracle) (bufferSize poolSize : Nat) :
    Option DatastoreBufferPool × List Nat :=
  if !o.structOk then (none, [])
  else if !o.containerOk then (none, [])
  else
    let r := allocateBuffers o.bufferOk poolSize
    if r.1 < 0 then (none, r.2)
    else
      (some { poolSize := poolSize, bufferSize := bufferSize,
              bufferInPool := bufferSize,
              buffers := r.2.map some ++ List.replicate (poolSize - r.2.length) none },
       r.2)

/-- datastoreBufPoolGet from datastoreBufferPool.c: when bufferInPool is
zero the pool is exhausted and NULL (none) is returned; otherwise the
slot bufferInPool - 1 is handed out, cleared, and the count decremented.
The source also rejects a NULL pool argument; pools are values here, so
that branch has no counterpart. -/
def datastoreBufPoolGet (pool : DatastoreBufferPool) : Option Nat × DatastoreBufferPool :=
  if pool.bufferInPool = 0 then (none, pool)
  else
    (pool.buffers.getD (pool.bufferInPool - 1) none,
     { pool with buffers := pool.buffers.set (pool.bufferInPool - 1) none,
                 bufferInPool := pool.bufferInPool - 1 })

/-- datastoreBufPoolReturn from datastoreBufferPool.c: rejects the return
only when bufferInPool >= poolSize AND the slot at index bufferInPool is
occupied (the source conjunction, translated verbatim); otherwise stores
the buffer at slot bufferInPool and increments the count. -/
def datastoreBufPoolReturn (pool : DatastoreBufferPool) (buffer : Nat) :
    Int × DatastoreBufferPool :=
  if pool.bufferInPool ≥ pool.poolSize ∧ (pool.buffers.getD pool.bufferInPool none).isSome then
    (ENOSPC, pool)
  else
    (0, { pool with buffers := pool.buffers.set pool.bufferInPool (some buffer),
                    bufferInPool := pool.bufferInPool + 1 })

/-- GenericSubscription_t from datastoreUtil.h: first datapoint index,
span length, pause flag, and the callback, modelled as a Nat identity
token with 0 playing the role of the NULL pointer. -/
structure GenericSubscription where
  datapointId : Nat
  valCount : Nat
  isPaused : Bool
  callback : Nat
deriving DecidableEq

/-- isFloatDatapointInSubRange from datastoreUtils.c, verbatim:
datapointId >= sub->datapointId AND datapointId < sub->valCount.  The
other four per-type predicates of the source have the same body. -/
def isFloatDatapointInSubRange (datapointId : Nat) (sub : GenericSubscription) : Bool :=
  decide (datapointId ≥ sub.datapointId) && decide (datapointId < sub.valCount)

/-- Modelled from the spec (for comparison with the source predicate):
a subscription is hit by a changed datapoint index i iff i lies in the
half-open interval from sub.datapointId to sub.datapointId + sub.valCount. -/
def specSubRangeHit (i : Nat) (sub : GenericSubscription) : Bool :=
  decide (sub.datapointId ≤ i) && decide (i < sub.datapointId + sub.valCount)

/-- One callback invocation observed during notification: the callback
token, the staged buffer contents handed to it, and the count argument. -/
structure NotifyEvent where
  callback : Nat
  payload : List Int
  valCount : Nat
deriving DecidableEq

/-- The subscription loop of datastoreUtilNotify: for each subscription
that passes isFloatDatapointInSubRange (the source applies the float
predicate whatever the type) and is unpaused, a buffer is taken from the
pool (returning -ENOSPC when exhausted), the slice
[sub.datapointId, sub.datapointId + sub.valCount) of the floats table is
copied into it (the source reads floats[j] whatever the type), and the
callback is invoked with the buffer and sub.valCount; a negative callback
result is returned at once.  No datastoreBufPoolReturn call appears in
the source, so handed-out buffers are not returned.  The source function
ends without a return statement; the loop completing is modelled as the
0 success code. -/
def notifyLoop (datapointId : Nat) (s : DSState) (cbRet : Nat → Int) :
    List GenericSubscription → DatastoreBufferPool → List NotifyEvent →
    Int × DatastoreBufferPool × List NotifyEvent
  | [], pool, evs => (0, pool, evs)
  | sub :: rest, pool, evs =>
    if isFloatDatapointInSubRange datapointId sub && !sub.isPaused then
      match datastoreBufPoolGet pool with
      | (none, pool2) => (ENOSPC, pool2, evs)
      | (some _, pool2) =>
        let payload := (List.range' sub.datapointId sub.valCount).map
          fun j => s.tables DATAPOINT_FLOAT j
        let err := cbRet sub.callback
        if err < 0 then (err, pool2, evs ++ [⟨sub.callback, payload, sub.valCount⟩])
        else notifyLoop datapointId s cbRet rest pool2
          (evs ++ [⟨sub.callback, payload, sub.valCount⟩])
    else notifyLoop datapointId s cbRet rest pool evs

/-- datastoreUtilNotify from datastoreUtils.c: type check, then the
subscription loop.  The subscription registry of the type, the table
state, the buffer pool and the callback behaviours (callback token to
returned code) are passed explicitly in place of the file-scope globals. -/
def datastoreUtilNotify (datapointType datapointId : Nat) (subs : List GenericSubscription)
    (s : DSState) (pool : DatastoreBufferPool) (cbRet : Nat → Int) :
    Int × DatastoreBufferPool × List NotifyEvent :=
  if DATAPOINT_TYPE_COUNT ≤ datapointType then (ENOTSUP, pool, [])
  else notifyLoop datapointId s cbRet subs pool []

/-- One iteration of the scan of datastoreUtilPauseSubscription: on a
callback match the error becomes 0 and the entry is paused; the scan
continues over the whole registry (the source loop has no break). -/
def pauseStep (callback : Nat) (acc : Int × List GenericSubscription)
    (sub : GenericSubscription) : Int × List GenericSubscription :=
  if sub.callback = callback then (0, acc.2 ++ [{ sub with isPaused := true }])
  else (acc.1, acc.2 ++ [sub])

/-- datastoreUtilPauseSubscription from datastoreUtils.c: type check,
NULL-callback check, then a full scan of the registry of the type that
pauses every entry whose callback matches, with the error code starting
at -ESRCH and cleared by any match. -/
def datastoreUtilPauseSubscription (datapointType callback : Nat)
    (subs : List GenericSubscription) : Int × List GenericSubscription :=
  if DATAPOINT_TYPE_COUNT ≤ datapointType then (ENOTSUP, subs)
  else if callback = 0 then (EINVAL, subs)
  else subs.foldl (pauseStep callback) (ESRCH, [])

/-- The scan of datastoreUtilSetFloatSubPauseState: the source loop runs
while i < activeCount AND err < 0, so it stops right after the first
matching entry; that entry gets the requested pause flag and the rest of
the registry is left untouched. -/
def setFloatSubPauseLoop (callback : Nat) (isPaused : Bool) :
    List GenericSubscription → Int × List GenericSubscription
  | [] => (ESRCH, [])
  | sub :: rest =>
    if sub.callback = callback then (0, { sub with isPaused := isPaused } :: rest)
    else
      let r := setFloatSubPauseLoop callback isPaused rest
      (r.1, sub :: r.2)

/-- datastoreUtilSetFloatSubPauseState from the later datastoreUtil.c:
NULL-callback check, then the first-match scan. -/
def datastoreUtilSetFloatSubPauseState (callback : Nat) (isPaused : Bool)
    (subs : List GenericSubscription) : Int × List GenericSubscription :=
  if callback = 0 then (EINVAL, subs)
  else setFloatSubPauseLoop callback isPaused subs

/-- Pointwise description of the read loop: an index in the loop range
receives the table value, any other index keeps the previous contents of
the output array. -/
theorem readLoop_apply (tbl : Nat → Int) (idxs : List Nat) (values : Nat → Int) (j : Nat) :
    readLoop tbl idxs values j = if j ∈ idxs then tbl j else values j := by
  induction idxs generalizing values with
  | nil => simp [readLoop]
  | cons i rest ih =>
    simp only [readLoop, List.foldl_cons] at ih ⊢
    rw [ih]
    by_cases hj : j ∈ rest
    · simp [hj]
    · by_cases hji : j = i
      · subst hji; simp [hj, Function.update_apply]
      · simp [hj, hji, Function.update_apply]

/-- Pointwise description of the write loop table: an index in the loop
range receives the caller value, any other index is untouched. -/
theorem writeLoop_fst_apply (vals : Nat → Int) (idxs : List Nat) (tbl : Nat → Int)
    (b : Bool) (j : Nat) :
    (writeLoop vals idxs tbl b).1 j = if j ∈ idxs then vals j else tbl j := by
  induction idxs generalizing tbl b with
  | nil => simp [writeLoop]
  | cons i rest ih =>
    simp only [writeLoop, List.foldl_cons] at ih ⊢
    by_cases h : tbl i = vals i
    · rw [show writeStep vals (tbl, b) i = (tbl, b) by simp [writeStep, h]]
      rw [ih]
      by_cases hj : j ∈ rest
      · simp [hj]
      · by_cases hji : j = i
        · subst hji; simp [hj, h]
        · simp [hj, hji]
    · rw [show writeStep vals (tbl, b) i = (Function.update tbl i (vals i), true) by
        simp [writeStep, h]]
      rw [ih]
      by_cases hj : j ∈ rest
      · simp [hj]
      · by_cases hji : j = i
        · subst hji; simp [hj, Function.update_apply]
        · simp [hj, hji, Function.update_apply]

/-- The notify flag of the write loop is sticky: once raised it stays
raised for the rest of the loop. -/
theorem writeLoop_snd_true (vals : Nat → Int) (idxs : List Nat) (tbl : Nat → Int) :
    (writeLoop vals idxs tbl true).2 = true := by
  induction idxs generalizing tbl with
  | nil => simp [writeLoop]
  | cons i rest ih =>
    simp only [writeLoop, List.foldl_cons] at ih ⊢
    by_cases h : tbl i = vals i
    · rw [show writeStep vals (tbl, true) i = (tbl, true) by simp [writeStep, h]]
      exact ih tbl
    · rw [show writeStep vals (tbl, true) i = (Function.update tbl i (vals i), true) by
        simp [writeStep, h]]
      exact ih _

/-- The notify flag produced by the write loop: raised exactly when it
was already raised or some index of the loop range held a value
different from the one being written. -/
theorem writeLoop_snd_iff (vals : Nat → Int) (idxs : List Nat) (tbl : Nat → Int) (b : Bool) :
    (writeLoop vals idxs tbl b).2 = true ↔ b = true ∨ ∃ i ∈ idxs, tbl i ≠ vals i := by
  induction idxs generalizing tbl b with
  | nil => simp [writeLoop]
  | cons i rest ih =>
    simp only [writeLoop, List.foldl_cons] at ih ⊢
    by_cases h : tbl i = vals i
    · rw [show writeStep vals (tbl, b) i = (tbl, b) by simp [writeStep, h]]
      rw [ih]
      simp only [List.mem_cons]
      constructor
      · rintro (hb | ⟨x, hx, hne⟩)
        · exact Or.inl hb
        · exact Or.inr ⟨x, Or.inr hx, hne⟩
      · rintro (hb | ⟨x, hx | hx, hne⟩)
        · exact Or.inl hb
        · subst hx; exact absurd h hne
        · exact Or.inr ⟨x, hx, hne⟩
    · rw [show writeStep vals (tbl, b) i = (Function.update tbl i (vals i), true) by
        simp [writeStep, h]]
      rw [show List.foldl (writeStep vals) (Function.update tbl i (vals i), true) rest =
        writeLoop vals rest (Function.update tbl i (vals i)) true from rfl]
      rw [writeLoop_snd_true]
      simp only [true_iff]
      exact Or.inr ⟨i, List.mem_cons_self i rest, h⟩

/-- Description of the scan of datastoreUtilPauseSubscription, for any
starting error code and accumulator: every matching entry gets paused,
the others are copied, and the error code is cleared exactly when some
entry matches. -/
theorem pauseFold_spec (callback : Nat) (subs : List GenericSubscription) (e : Int)
    (acc : List GenericSubscription) :
    subs.foldl (pauseStep callback) (e, acc) =
      (if ∃ s ∈ subs, s.callback = callback then 0 else e,
       acc ++ subs.map fun s =>
         if s.callback = callback then { s with isPaused := true } else s) := by
  induction subs generalizing e acc with
  | nil => simp
  | cons s rest ih =>
    simp only [List.foldl_cons]
    by_cases h : s.callback = callback
    · rw [show pauseStep callback (e, acc) s = (0, acc ++ [{ s with isPaused := true }]) by
        simp [pauseStep, h]]
      rw [ih]
      simp [h, List.exists_mem_cons_iff]
    · rw [show pauseStep callback (e, acc) s = (e, acc ++ [s]) by simp [pauseStep, h]]
      rw [ih]
      simp [h, List.exists_mem_cons_iff]

/-- An allocation run in which every k_malloc call succeeds. -/
def allocAllOk : AllocOracle := ⟨true, true, fun _ => true⟩

/-- Fallback pool value used to destructure the optional result of
datastoreBufPoolInit in the concrete runs below (never reached there). -/
def emptyPool : DatastoreBufferPool := ⟨0, 0, 0, []⟩

/-- Claim C1: the spec says the table read and write operations accept a
request, and touch only in-bounds indices, iff firstId + count is at most
N_type, returning the range error otherwise.  The source check
isDatapointIdAndValCountValid rejects only when datapointId >= N, so
read(Float, firstId 1, count 10) with N_float = 4 is accepted although
1 + 10 > 4, its loop dereferences the out-of-bounds table index 4, and
the write on the same range is accepted and stores past the table end
(index 9). -/
theorem readData_accepts_out_of_range :
    FLOAT_DATAPOINT_COUNT = 4 ∧
    (datastoreUtilReadData DATAPOINT_FLOAT 1 10 initState fun _ => 0).1 = 0 ∧
    4 ∈ datastoreUtilReadAccesses DATAPOINT_FLOAT 1 10 ∧
    (datastoreUtilWriteData DATAPOINT_FLOAT 1 (fun _ => 5) 10 initState false).1 = 0 ∧
    ((datastoreUtilWriteData DATAPOINT_FLOAT 1 (fun _ => 5) 10 initState false).2.1).tables
        DATAPOINT_FLOAT 9 = 5 := by
  refine ⟨rfl, rfl, by decide, rfl, by decide⟩

/-- Buffer pool with ample buffers for the notification runs below
(bufferSize 8, poolSize 8; every allocation succeeds). -/
def c2Pool : DatastoreBufferPool := ((datastoreBufPoolInit allocAllOk 8 8).1).getD emptyPool

/-- Claim C2: the spec requires a subscription to be hit by changed index
i iff i lies in [sub.datapointId, sub.datapointId + sub.count), and on
subscriptions S1 = [0,4), S2 = [2,3), S3 = [5,6) a write to index 2 must
invoke exactly S1 and S2.  The source predicate compares i against
sub.valCount instead of sub.datapointId + sub.valCount, so S2 (first
index 2, span 1) is not hit at i = 2 and the notification run invokes
only the S1 callback. -/
theorem notify_misses_exact_range_sub :
    specSubRangeHit 2 ⟨2, 1, false, 2⟩ = true ∧
    isFloatDatapointInSubRange 2 ⟨2, 1, false, 2⟩ = false ∧
    specSubRangeHit 2 ⟨0, 4, false, 1⟩ = true ∧
    specSubRangeHit 2 ⟨5, 1, false, 3⟩ = false ∧
    ((datastoreUtilNotify DATAPOINT_FLOAT 2
        [⟨0, 4, false, 1⟩, ⟨2, 1, false, 2⟩, ⟨5, 1, false, 3⟩]
        initState c2Pool fun _ => 0).2.2.map NotifyEvent.callback) = [1] := by
  refine ⟨rfl, rfl, rfl, rfl, by decide⟩

/-- Buffer pool created by datastoreBufPoolInit with bufferSize 1 and
poolSize 2, every allocation succeeding. -/
def c3Pool : DatastoreBufferPool := ((datastoreBufPoolInit allocAllOk 1 2).1).getD emptyPool

/-- Claim C3: the spec says a sequence of acquires and releases that
never exceeds poolSize outstanding never sees exhaustion, and a release
with no buffer outstanding is rejected with the capacity error.  The
source initializes the available count to bufferSize instead of
poolSize: after init(bufferSize 1, poolSize 2) only one buffer is
available, so the second acquire (one buffer outstanding, below
poolSize = 2) already reports exhaustion; and a release performed right
after init, with nothing outstanding, is accepted with status 0 instead
of returning the capacity error. -/
theorem bufPool_conservation_violated :
    c3Pool.poolSize = 2 ∧
    c3Pool.bufferInPool = 1 ∧
    (datastoreBufPoolGet c3Pool).1.isSome = true ∧
    (datastoreBufPoolGet (datastoreBufPoolGet c3Pool).2).1 = none ∧
    (datastoreBufPoolReturn c3Pool 99).1 = 0 := by decide

/-- Claim C4: the spec says datastoreBufPoolInit either returns a fully
allocated pool or fails atomically with no buffer left allocated.  In a
run where the pool struct and the container allocate but only buffer 0
allocates (buffer 1 fails), the source returns NULL without calling
freeBuffers, so buffer 0 stays allocated. -/
theorem bufPoolInit_not_atomic :
    (datastoreBufPoolInit ⟨true, true, fun i => i == 0⟩ 8 2).1 = none ∧
    (datastoreBufPoolInit ⟨true, true, fun i => i == 0⟩ 8 2).2 = [0] := by decide

/-- Table state for the C5 run: float datapoint 0 holds 42, unsigned
integer datapoint 0 holds 7, everything else 0. -/
def c5State : DSState :=
  ⟨fun t i =>
    if t = DATAPOINT_FLOAT ∧ i = 0 then 42
    else if t = DATAPOINT_UINT ∧ i = 0 then 7 else 0⟩

/-- Buffer pool for the C5 run: bufferSize 3 and poolSize 3, so the
available count (set to bufferSize by the source) starts at the true
pool capacity 3. -/
def c5Pool : DatastoreBufferPool := ((datastoreBufPoolInit allocAllOk 3 3).1).getD emptyPool

/-- The C5 notification run: one unpaused unsigned-integer subscription
covering [0,1), notified for a change of datapoint 0. -/
def c5Run : Int × DatastoreBufferPool × List NotifyEvent :=
  datastoreUtilNotify DATAPOINT_UINT 0 [⟨0, 1, false, 9⟩] c5State c5Pool fun _ => 0

/-- Claim C5: the spec says notify copies the full declared range of the
table of the type that was written and releases the acquired buffer
afterwards.  In the run above the callback of the unsigned-integer
subscription receives the float-table value 42 instead of the
unsigned-integer value 7 (the source copy loop reads the floats array
for every type), and the pool count drops from 3 to 2 with no release
(the source never calls datastoreBufPoolReturn). -/
theorem notify_wrong_table_and_no_release :
    c5State.tables DATAPOINT_UINT 0 = 7 ∧
    c5State.tables DATAPOINT_FLOAT 0 = 42 ∧
    c5Run.1 = 0 ∧
    c5Run.2.2 = [⟨9, [42], 1⟩] ∧
    c5Pool.bufferInPool = 3 ∧
    c5Run.2.1.bufferInPool = 2 := by decide

/-- Claim C6: the spec says each per-type table is created from the
catalog list of its own type, in particular that signed-integer and
button datapoints hold the signed-integer and button defaults.  The
source initializes the ints and buttons arrays from
DATASTORE_FLOAT_DATAPOINTS: their defaults are the float defaults
0, 1, 2, 3 and differ from the defaults declared by
DATASTORE_INT_DATAPOINTS (-1, 0, 1, 2) and DATASTORE_BUTTON_DATAPOINTS
(0, 0, 0, 0). -/
theorem int_button_tables_use_float_catalog :
    ints.map Datapoint.data = DATASTORE_FLOAT_DATAPOINTS.map CatalogEntry.defaultVal ∧
    ints.map Datapoint.data ≠ DATASTORE_INT_DATAPOINTS.map CatalogEntry.defaultVal ∧
    buttons.map Datapoint.data = DATASTORE_FLOAT_DATAPOINTS.map CatalogEntry.defaultVal ∧
    buttons.map Datapoint.data ≠ DATASTORE_BUTTON_DATAPOINTS.map CatalogEntry.defaultVal := by
  decide

/-- The caller array of the C7 run, modelling the one-element array
[9]: index 0 holds the written value 9, index 1 (past the array end in
C) holds the distinguishable junk value 7. -/
def c7Vals : Nat → Int := fun i => if i = 0 then 9 else 7

/-- The C7 write: value array [9], one element, to float datapoint 1. -/
def c7Write : Int × DSState × Bool :=
  datastoreUtilWriteData DATAPOINT_FLOAT 1 c7Vals 1 initState false

/-- The C7 read of float datapoint 1 after the write, into a zeroed
output array. -/
def c7Read : Int × (Nat → Int) :=
  datastoreUtilReadData DATAPOINT_FLOAT 1 1 c7Write.2.1 fun _ => 0

/-- Claim C7: the spec says an accepted write of [v] to datapoint id
followed by a read of that datapoint returns v.  The source indexes the
caller arrays with the absolute datapoint index: the write to id 1 reads
element 1 of the one-element array [9] (the junk value 7 past its end)
and stores that into the table, and the read stores the table value at
element 1 of the output array, leaving element 0 untouched — the caller
never gets 9 back. -/
theorem write_then_read_wrong_offset :
    c7Vals 0 = 9 ∧
    c7Write.1 = 0 ∧
    c7Write.2.1.tables DATAPOINT_FLOAT 1 = 7 ∧
    c7Read.1 = 0 ∧
    c7Read.2 1 = 7 ∧
    c7Read.2 0 = 0 := by decide

/-- Claim C8: for an accepted write, the returned needToNotify flag is
true iff at least one element of the written range differs from its
current table value; in particular a write of identical values returns
status 0 with the flag false. -/
theorem writeData_changed_iff (datapointType datapointId : Nat) (vals : Nat → Int)
    (valCount : Nat) (s : DSState) (b : Bool)
    (ht : datapointType < DATAPOINT_TYPE_COUNT)
    (hv : isDatapointIdAndValCountValid datapointId valCount
      (datapointCounts.getD datapointType 0) = false) :
    (datastoreUtilWriteData datapointType datapointId vals valCount s b).1 = 0 ∧
    ((datastoreUtilWriteData datapointType datapointId vals valCount s b).2.2 = true ↔
      ∃ i, datapointId ≤ i ∧ i < datapointId + valCount ∧
        s.tables datapointType i ≠ vals i) := by
  unfold datastoreUtilWriteData
  rw [if_neg (Nat.not_le.mpr ht), if_neg (by rw [hv]; exact Bool.false_ne_true)]
  refine ⟨rfl, ?_⟩
  show (writeLoop vals (List.range' datapointId valCount) (s.tables datapointType) false).2
      = true ↔ _
  rw [writeLoop_snd_iff]
  simp only [Bool.false_eq_true, false_or, List.mem_range'_1, and_assoc]

/-- Concrete instantiation of writeData_changed_iff: writing the current
value of float datapoint 0 is accepted and reports no change. -/
theorem writeData_changed_iff_witness :
    (DATAPOINT_FLOAT < DATAPOINT_TYPE_COUNT ∧
     isDatapointIdAndValCountValid 0 1 (datapointCounts.getD DATAPOINT_FLOAT 0) = false) ∧
    ((datastoreUtilWriteData DATAPOINT_FLOAT 0 (fun _ => 0) 1 initState false).1 = 0 ∧
     ((datastoreUtilWriteData DATAPOINT_FLOAT 0 (fun _ => 0) 1 initState false).2.2 = true ↔
       ∃ i, 0 ≤ i ∧ i < 0 + 1 ∧ initState.tables DATAPOINT_FLOAT i ≠ (fun _ => (0 : Int)) i)) :=
  ⟨⟨by decide, by decide⟩,
   writeData_changed_iff DATAPOINT_FLOAT 0 (fun _ => 0) 1 initState false (by decide) (by decide)⟩

/-- Claim C9 counterexample: on a registry holding two subscriptions with
the same callback 7, the claimed first-match-wins result (second entry
left unpaused) is not what datastoreUtilPauseSubscription produces — the
source scan has no break and pauses both entries. -/
theorem pause_updates_later_duplicates :
    (datastoreUtilPauseSubscription DATAPOINT_FLOAT 7
        [⟨0, 1, false, 7⟩, ⟨2, 1, false, 7⟩]).2 ≠
      [⟨0, 1, true, 7⟩, ⟨2, 1, false, 7⟩] := by decide

/-- Claim C9 as amended: for a supported type and non-null callback,
datastoreUtilPauseSubscription scans the registry in insertion order and
sets the paused flag of every subscription whose callback matches,
returning 0 iff some entry matched (and the not-found error otherwise);
the later per-type datastoreUtilSetFloatSubPauseState variant stops at
the first match, leaving the rest of the registry untouched. -/
theorem pauseSubscription_amended :
    (∀ datapointType callback subs,
        datapointType < DATAPOINT_TYPE_COUNT → callback ≠ 0 →
        (datastoreUtilPauseSubscription datapointType callback subs).2 =
          (subs.map fun s =>
            if s.callback = callback then { s with isPaused := true } else s) ∧
        ((datastoreUtilPauseSubscription datapointType callback subs).1 = 0 ↔
          ∃ s ∈ subs, s.callback = callback)) ∧
    (∀ callback isPaused sub rest,
        callback ≠ 0 → sub.callback = callback →
        (datastoreUtilSetFloatSubPauseState callback isPaused (sub :: rest)).2 =
          { sub with isPaused := isPaused } :: rest) := by
  constructor
  · intro t cb subs ht hcb
    unfold datastoreUtilPauseSubscription
    rw [if_neg (Nat.not_le.mpr ht), if_neg hcb, pauseFold_spec]
    refine ⟨by simp, ?_⟩
    by_cases h : ∃ s ∈ subs, s.callback = cb
    · simp [h]
    · rw [if_neg h]
      constructor
      · intro he; exact absurd he (show ESRCH ≠ 0 by decide)
      · intro hx; exact absurd hx h
  · intro cb p sub rest hcb hm
    unfold datastoreUtilSetFloatSubPauseState setFloatSubPauseLoop
    rw [if_neg hcb, if_pos hm]

/-- Concrete instantiation of pauseSubscription_amended: pausing callback
7 on a registry with two matching entries pauses both. -/
theorem pauseSubscription_amended_witness :
    (datastoreUtilPauseSubscription DATAPOINT_FLOAT 7
        [⟨0, 1, false, 7⟩, ⟨2, 1, false, 7⟩]).2 =
      ([⟨0, 1, false, 7⟩, ⟨2, 1, false, 7⟩].map fun s =>
        if s.callback = 7 then { s with isPaused := true } else s) :=
  (pauseSubscription_amended.1 DATAPOINT_FLOAT 7
    [⟨0, 1, false, 7⟩, ⟨2, 1, false, 7⟩] (by decide) (by decide)).1

/-- Claim C10: whenever datastoreUtilWriteData returns a nonzero error
status (unsupported type or failed range validation), the table state and
the needToNotify out-parameter are exactly as before the call — all
validation happens before any element is mutated. -/
theorem writeData_error_leaves_state (datapointType datapointId : Nat) (vals : Nat → Int)
    (valCount : Nat) (s : DSState) (b : Bool)
    (h : (datastoreUtilWriteData datapointType datapointId vals valCount s b).1 ≠ 0) :
    (datastoreUtilWriteData datapointType datapointId vals valCount s b).2.1 = s ∧
    (datastoreUtilWriteData datapointType datapointId vals valCount s b).2.2 = b := by
  unfold datastoreUtilWriteData at h ⊢
  by_cases h1 : DATAPOINT_TYPE_COUNT ≤ datapointType
  · rw [if_pos h1]; exact ⟨rfl, rfl⟩
  · rw [if_neg h1] at h ⊢
    by_cases h2 : isDatapointIdAndValCountValid datapointId valCount
        (datapointCounts.getD datapointType 0) = true
    · rw [if_pos h2]; exact ⟨rfl, rfl⟩
    · rw [if_neg h2] at h
      exact absurd rfl h

/-- Concrete instantiation of writeData_error_leaves_state: a write with
the unsupported type value 5 fails and leaves the state untouched. -/
theorem writeData_error_leaves_state_witness :
    ((datastoreUtilWriteData DATAPOINT_TYPE_COUNT 0 (fun _ => 0) 1 initState false).1 ≠ 0) ∧
    ((datastoreUtilWriteData DATAPOINT_TYPE_COUNT 0 (fun _ => 0) 1 initState false).2.1 =
        initState ∧
     (datastoreUtilWriteData DATAPOINT_TYPE_COUNT 0 (fun _ => 0) 1 initState false).2.2 =
        false) :=
  ⟨by decide,
   writeData_error_leaves_state DATAPOINT_TYPE_COUNT 0 (fun _ => 0) 1 initState false
     (by decide)⟩

end Datastore
